import Mathlib

/-!
Verification of the reward-function family of the sinergym heat-pump
control repository (`sinergym/utils/rewards.py`) and of the production
observation adapter (`sinergym/envs/pyenv_production.py`).

Numbers are modelled as exact rationals (ℚ); Python `int()` is modelled
as truncation toward zero; observation dictionaries are modelled as total
functions `String → ℚ` (a claim about an observation "containing all
configured keys" is exactly this model); fallible constructors return
`Except String`.
-/

/-- Python `int(q)` on a float: truncation toward zero. -/
def pyInt (q : ℚ) : ℤ :=
  if 0 ≤ q then ⌊q⌋ else ⌈q⌉

/-- Modelled from the spec: the fixed reference year used for weekday
computation.  `YEAR` lives in `sinergym/utils/constants.py`, which is not
part of the sources; the spec fixes the reference calendar by
`weekday(Jan 15 2024) = Monday`, i.e. year 2024. -/
def YEAR : ℤ := 2024

/-- Days of year 2024 (leap year) elapsed before the given month.
Month arguments outside `[1,12]` do not occur: the callers clamp first. -/
def cumDaysBeforeMonth (m : ℤ) : ℤ :=
  if m ≤ 1 then 0
  else if m = 2 then 31
  else if m = 3 then 60
  else if m = 4 then 91
  else if m = 5 then 121
  else if m = 6 then 152
  else if m = 7 then 182
  else if m = 8 then 213
  else if m = 9 then 244
  else if m = 10 then 274
  else if m = 11 then 305
  else 335

/-- `datetime(YEAR, month, day).weekday()` for the 2024 reference year:
0 = Monday … 6 = Sunday.  Jan 1 2024 is a Monday. -/
def weekdayOf (month day : ℤ) : ℤ :=
  (cumDaysBeforeMonth month + day - 1) % 7

/-- Spanish weekday names to Python weekday numbers
(`dias_map` in `NuestroRewardMultizona.__init__`). -/
def diasMap (d : String) : Option ℤ :=
  if d = "lunes" then some 0
  else if d = "martes" then some 1
  else if d = "miercoles" then some 2
  else if d = "jueves" then some 3
  else if d = "viernes" then some 4
  else if d = "sabado" then some 5
  else if d = "domingo" then some 6
  else none

/-- A parsed tariff JSON file (`tarifa_json` contents): prices and the
peak window, with the peak days still as Spanish weekday names. -/
structure Tarifa where
  punta : ℚ
  fuera_de_punta : ℚ
  punta_inicio : ℤ
  punta_fin : ℤ
  dias_punta : List String

/-- Engine state of `NuestroRewardMultizona` after `__init__`. -/
structure NuestroRewardMultizona where
  temp_names : List String
  hum_names : List String
  energy_names : List String
  W_energy : ℚ
  lambda_energy : ℚ
  lambda_temp : ℚ
  precio_punta : ℚ
  precio_fuera_punta : ℚ
  punta_inicio : ℤ
  punta_fin : ℤ
  dias_punta : List ℤ
deriving DecidableEq

/-- `NuestroRewardMultizona.__init__`.  Raises `ValueError` when
`energy_weight` is outside `[0,1]`; the `isinstance(v, str)` check is
vacuous in this embedding (variable names are `String` by type);
`dias_map[d]` raises `KeyError` on an unknown weekday name. -/
def NuestroRewardMultizona.init
    (temperature_variables humidity_variables energy_variables : List String)
    (energy_weight lambda_energy lambda_temperature : ℚ)
    (tarifa_json : Option Tarifa) (high_price low_price : ℚ) :
    Except String NuestroRewardMultizona :=
  if ¬ (0 ≤ energy_weight ∧ energy_weight ≤ 1) then
    .error "ValueError"
  else
    match tarifa_json with
    | some tarifa => do
        let dias ← tarifa.dias_punta.mapM
          (fun d => match diasMap d with
            | some w => Except.ok w
            | none => Except.error "KeyError")
        .ok { temp_names := temperature_variables
              hum_names := humidity_variables
              energy_names := energy_variables
              W_energy := energy_weight
              lambda_energy := lambda_energy
              lambda_temp := lambda_temperature
              precio_punta := tarifa.punta
              precio_fuera_punta := tarifa.fuera_de_punta
              punta_inicio := tarifa.punta_inicio
              punta_fin := tarifa.punta_fin
              dias_punta := dias }
    | none =>
        .ok { temp_names := temperature_variables
              hum_names := humidity_variables
              energy_names := energy_variables
              W_energy := energy_weight
              lambda_energy := lambda_energy
              lambda_temp := lambda_temperature
              precio_punta := high_price
              precio_fuera_punta := low_price
              punta_inicio := 17
              punta_fin := 20
              dias_punta := [0, 1, 2, 3, 4] }

/-- `NuestroRewardMultizona._calculate_pmv_violation`: returns
`(pmv, violation)` for one zone.  The `total_energy` argument is received
but never read in the body (the docstring of the Python function claims a
hot-side energy gate; the body computes the bilateral penalty
unconditionally). -/
def NuestroRewardMultizona.calculate_pmv_violation
    (tdb rh total_energy : ℚ) : ℚ × ℚ :=
  let _ := total_energy
  let pmv := -7.4928 + 0.2882 * tdb - 0.0020 * rh + 0.0004 * tdb * rh
  let d := max (-0.5 - pmv) 0 + max (pmv - 0.5) 0
  let violation := d + d * d
  (pmv, violation)

/-- `NuestroRewardMultizona._get_energy_consumed`. -/
def NuestroRewardMultizona.get_energy_consumed
    (R : NuestroRewardMultizona) (obs : String → ℚ) : List ℚ :=
  R.energy_names.map obs

/-- `NuestroRewardMultizona._get_temperature_violation`: iterates over
`zip(temp_names, hum_names)` and collects `(violations, pmv_values)`. -/
def NuestroRewardMultizona.get_temperature_violation
    (R : NuestroRewardMultizona) (obs : String → ℚ) (total_energy : ℚ) :
    List ℚ × List ℚ :=
  let zones := R.temp_names.zip R.hum_names
  (zones.map (fun z =>
      (NuestroRewardMultizona.calculate_pmv_violation (obs z.1) (obs z.2)
        total_energy).2),
   zones.map (fun z =>
      (NuestroRewardMultizona.calculate_pmv_violation (obs z.1) (obs z.2)
        total_energy).1))

/-- The `reward_terms` dictionary returned by
`NuestroRewardMultizona.__call__`. -/
structure MultizonaTerms where
  energy_term : ℚ
  comfort_term : ℚ
  energy_penalty : ℚ
  comfort_penalty : ℚ
  total_power_demand : ℚ
  total_temperature_violation : ℚ
  reward_weight : ℚ
  avg_pmv : ℚ
  price_kwh : ℚ
deriving DecidableEq

/-- `NuestroRewardMultizona.__call__`. -/
def NuestroRewardMultizona.call
    (R : NuestroRewardMultizona) (obs : String → ℚ) : ℚ × MultizonaTerms :=
  let month := max 1 (min 12 (pyInt (obs "month")))
  let day := max 1 (min 28 (pyInt (obs "day_of_month")))
  let hour_raw := max 0 (min 23 (pyInt (obs "hour")))
  let weekday := weekdayOf month day
  let hour := hour_raw
  let price_kwh :=
    if weekday ∈ R.dias_punta ∧ R.punta_inicio ≤ hour ∧ hour ≤ R.punta_fin
    then R.precio_punta else R.precio_fuera_punta
  let energy_values := R.get_energy_consumed obs
  let total_energy := energy_values.sum
  let energy_penalty := -(total_energy / 1000) * price_kwh
  let tv := R.get_temperature_violation obs total_energy
  let total_temp_violation := tv.1.sum
  let comfort_penalty := -total_temp_violation
  let avg_pmv := tv.2.sum / (max tv.2.length 1 : ℚ)
  let energy_term := R.lambda_energy * R.W_energy * energy_penalty
  let comfort_term := R.lambda_temp * (1 - R.W_energy) * comfort_penalty
  let reward := energy_term + comfort_term
  (reward,
   { energy_term := energy_term
     comfort_term := comfort_term
     energy_penalty := energy_penalty
     comfort_penalty := comfort_penalty
     total_power_demand := total_energy
     total_temperature_violation := total_temp_violation
     reward_weight := R.W_energy
     avg_pmv := avg_pmv
     price_kwh := price_kwh })

/-- Engine state of `NuestroRewardMultizonaPPO` after `__init__` (only the
fields the verified claims touch; the PPO-specific reward shaping constants
are hard-coded in its `__call__`). -/
structure NuestroRewardMultizonaPPO where
  temp_names : List String
  hum_names : List String
  energy_names : List String
  W_energy : ℚ
  lambda_energy : ℚ
  lambda_temp : ℚ
  precio_punta : ℚ
  precio_fuera_punta : ℚ
  punta_inicio : ℤ
  punta_fin : ℤ
  dias_punta : List ℤ
deriving DecidableEq

/-- One row of the parsed presence-schedule CSV (`date` split into month
and day of the fixed reference year, `hour`, `my_factor`). -/
structure ScheduleRow where
  month : ℤ
  day : ℤ
  hour : ℤ
  my_factor : ℚ
deriving DecidableEq

/-- The pandas row selection
`schedule[(schedule.date == current_date) & (schedule.hour == current_hour)]`
followed by taking `my_factor` of `values[0]`: the factor of the first row
matching the given month/day/hour, if any. -/
def scheduleLookup (rows : List ScheduleRow) (month day hour : ℤ) :
    Option ℚ :=
  ((rows.filter
      (fun r => r.month == month && r.day == day && r.hour == hour)).head?).map
    ScheduleRow.my_factor

/-- `NuestroRewardMultizonaPPO.__init__`: raises `ValueError` when
`energy_weight` is outside `[0,1]` (no string-type check in this class);
`lambda_energy` is multiplied by 5 internally. -/
def NuestroRewardMultizonaPPO.init
    (temperature_variables humidity_variables energy_variables : List String)
    (energy_weight lambda_energy lambda_temperature : ℚ)
    (tarifa_json : Option Tarifa) (high_price low_price : ℚ) :
    Except String NuestroRewardMultizonaPPO :=
  if ¬ (0 ≤ energy_weight ∧ energy_weight ≤ 1) then
    .error "ValueError"
  else
    match tarifa_json with
    | some tarifa => do
        let dias ← tarifa.dias_punta.mapM
          (fun d => match diasMap d with
            | some w => Except.ok w
            | none => Except.error "KeyError")
        .ok { temp_names := temperature_variables
              hum_names := humidity_variables
              energy_names := energy_variables
              W_energy := energy_weight
              lambda_energy := lambda_energy * 5
              lambda_temp := lambda_temperature
              precio_punta := tarifa.punta
              precio_fuera_punta := tarifa.fuera_de_punta
              punta_inicio := tarifa.punta_inicio
              punta_fin := tarifa.punta_fin
              dias_punta := dias }
    | none =>
        .ok { temp_names := temperature_variables
              hum_names := humidity_variables
              energy_names := energy_variables
              W_energy := energy_weight
              lambda_energy := lambda_energy * 5
              lambda_temp := lambda_temperature
              precio_punta := high_price
              precio_fuera_punta := low_price
              punta_inicio := 17
              punta_fin := 20
              dias_punta := [0, 1, 2, 3, 4] }

/-- `NuestroRewardMultizonaPPO._calculate_pmv_violation`: same bilateral
formula as the SAC variant, no energy argument at all. -/
def NuestroRewardMultizonaPPO.calculate_pmv_violation
    (tdb rh : ℚ) : ℚ × ℚ :=
  let pmv := -7.4928 + 0.2882 * tdb - 0.0020 * rh + 0.0004 * tdb * rh
  let d := max (-0.5 - pmv) 0 + max (pmv - 0.5) 0
  let violation := d + d * d
  (pmv, violation)

/-- Engine state of `LinearReward` after `__init__`. -/
structure LinearReward where
  temp_names : List String
  energy_names : List String
  range_comfort_winter : ℚ × ℚ
  range_comfort_summer : ℚ × ℚ
  W_energy : ℚ
  lambda_energy : ℚ
  lambda_temp : ℚ
  summer_start : ℤ × ℤ
  summer_final : ℤ × ℤ
deriving DecidableEq

/-- `LinearReward.__init__`: raises `ValueError` when `energy_weight` is
outside `[0,1]`; the `isinstance(v, str)` check is vacuous in this
embedding. -/
def LinearReward.init
    (temperature_variables energy_variables : List String)
    (range_comfort_winter range_comfort_summer : ℚ × ℚ)
    (summer_start summer_final : ℤ × ℤ)
    (energy_weight lambda_energy lambda_temperature : ℚ) :
    Except String LinearReward :=
  if ¬ (0 ≤ energy_weight ∧ energy_weight ≤ 1) then
    .error "ValueError"
  else
    .ok { temp_names := temperature_variables
          energy_names := energy_variables
          range_comfort_winter := range_comfort_winter
          range_comfort_summer := range_comfort_summer
          W_energy := energy_weight
          lambda_energy := lambda_energy
          lambda_temp := lambda_temperature
          summer_start := summer_start
          summer_final := summer_final }

/-- Engine state of `NuestroReward` after `__init__`.  `schedule` is the
parsed presence CSV (`None` when no `schedule_csv` is given).  `W_energy`
is genuinely mutable instance state: `__call__` reassigns it. -/
structure NuestroReward where
  temp_names : List String
  energy_names : List String
  W_energy : ℚ
  lambda_energy : ℚ
  lambda_temp : ℚ
  low_price : ℚ
  high_price : ℚ
  schedule : Option (List ScheduleRow)
deriving DecidableEq

/-- `NuestroReward.__init__`: raises `ValueError` when `energy_weight` is
outside `[0,1]`; the `isinstance(v, str)` check is vacuous in this
embedding. -/
def NuestroReward.init
    (temperature_variables energy_variables : List String)
    (energy_weight lambda_energy lambda_temperature : ℚ)
    (high_price low_price : ℚ)
    (schedule_csv : Option (List ScheduleRow)) :
    Except String NuestroReward :=
  if ¬ (0 ≤ energy_weight ∧ energy_weight ≤ 1) then
    .error "ValueError"
  else
    .ok { temp_names := temperature_variables
          energy_names := energy_variables
          W_energy := energy_weight
          lambda_energy := lambda_energy
          lambda_temp := lambda_temperature
          low_price := low_price
          high_price := high_price
          schedule := schedule_csv }

/-- `NuestroReward._get_temperature_violation`.  `tdb` and `rh` come from
`temp_names[0]` and `temp_names[1]` (modelled for in-range indices; Python
would raise `IndexError` on shorter lists, which no claim exercises).  The
Python line `violacion = max(-0,5 - (pmv), 0, pmv - 0,5)` is a five-argument
`max` over `-0`, `5 - pmv`, `0`, `pmv - 0`, `5`. -/
def NuestroReward.get_temperature_violation
    (E : NuestroReward) (obs : String → ℚ) : List ℚ :=
  let tdb := obs (E.temp_names.getD 0 "")
  let rh := obs (E.temp_names.getD 1 "")
  let pmv := -7.4928 + 0.2882 * tdb - 0.0020 * rh + 0.0004 * tdb * rh
  let violacion := max (max (max (max (-0 : ℚ) (5 - pmv)) 0) (pmv - 0)) 5
  [violacion]

/-- The `reward_terms` dictionary returned by `NuestroReward.__call__`. -/
structure NuestroTerms where
  energy_term : ℚ
  comfort_term : ℚ
  energy_penalty : ℚ
  comfort_penalty : ℚ
  total_power_demand : ℚ
  total_temperature_violation : ℚ
  reward_weight : ℚ
deriving DecidableEq

/-- `NuestroReward.__call__`.  Besides `(reward, reward_terms)` the result
carries the engine state after the call: the occupancy-schedule branch
assigns `self.W_energy = 1` (and nothing ever assigns it back), so the
engine returned holds the possibly-updated weight.  The schedule lookup
uses the raw (unclamped) month/day/hour integers, as the source does. -/
def NuestroReward.call (E : NuestroReward) (obs : String → ℚ) :
    ℚ × NuestroTerms × NuestroReward :=
  let month := max 1 (min 12 (pyInt (obs "month")))
  let day := max 1 (min 28 (pyInt (obs "day_of_month")))
  let hour_raw := max 0 (min 23 (pyInt (obs "hour")))
  let weekday := weekdayOf month day
  let hour := hour_raw
  let price_kwh :=
    if weekday < 5 ∧ 17 ≤ hour ∧ hour ≤ 21 then E.high_price else E.low_price
  let energy_values := E.energy_names.map obs
  let total_energy := energy_values.sum
  let energy_penalty := -(total_energy / 1000) * price_kwh
  let temp_violations := E.get_temperature_violation obs
  let total_temp_violation := temp_violations.sum
  let comfort_penalty := -total_temp_violation
  let W :=
    match E.schedule with
    | none => E.W_energy
    | some rows =>
        match scheduleLookup rows (pyInt (obs "month"))
            (pyInt (obs "day_of_month")) (pyInt (obs "hour")) with
        | some factor => if factor = 0 then 1 else E.W_energy
        | none => E.W_energy
  let energy_term := E.lambda_energy * W * energy_penalty
  let comfort_term := E.lambda_temp * (1 - W) * comfort_penalty
  let reward := energy_term + comfort_term
  (reward,
   { energy_term := energy_term
     comfort_term := comfort_term
     energy_penalty := energy_penalty
     comfort_penalty := comfort_penalty
     total_power_demand := total_energy
     total_temperature_violation := total_temp_violation
     reward_weight := W },
   { E with W_energy := W })

/-- Per-variable lookup of `PyEnvProduction._get_observation_api`:
take the value under the variable name itself; otherwise follow the
configured field mapping; substitute `0.0` when the mapped field is absent
or the variable has no mapping. -/
def api_lookup (data : String → Option ℚ)
    (field_mapping : String → Option String) (var_name : String) : ℚ :=
  match data var_name with
  | some v => v
  | none =>
      match field_mapping var_name with
      | some mapped_field =>
          match data mapped_field with
          | some v => v
          | none => 0
      | none => 0

/-- The observation-construction loop of
`PyEnvProduction._get_observation_api`: one value per configured variable
name, in order. -/
def get_observation_api (variable_names : List String)
    (data : String → Option ℚ) (field_mapping : String → Option String) :
    List ℚ :=
  variable_names.map (api_lookup data field_mapping)

/-- The band deviation `d = max(-0.5 - PMV, 0) + max(PMV - 0.5, 0)`,
written from the words of the spec for comparison with the code. -/
def spec_band_deviation (p : ℚ) : ℚ :=
  max (-0.5 - p) 0 + max (p - 0.5) 0

lemma spec_band_deviation_nonneg (p : ℚ) : 0 ≤ spec_band_deviation p := by
  have h1 : (0:ℚ) ≤ max (-0.5 - p) 0 := le_max_right _ _
  have h2 : (0:ℚ) ≤ max (p - 0.5) 0 := le_max_right _ _
  unfold spec_band_deviation
  linarith

lemma spec_band_deviation_eq_zero_iff (p : ℚ) :
    spec_band_deviation p = 0 ↔ -0.5 ≤ p ∧ p ≤ 0.5 := by
  unfold spec_band_deviation
  constructor
  · intro h
    have h1 : (0:ℚ) ≤ max (-0.5 - p) 0 := le_max_right _ _
    have h2 : (0:ℚ) ≤ max (p - 0.5) 0 := le_max_right _ _
    have ha : max (-0.5 - p) 0 = 0 := by linarith
    have hb : max (p - 0.5) 0 = 0 := by linarith
    have ha2 : -0.5 - p ≤ 0 := ha ▸ le_max_left _ _
    have hb2 : p - 0.5 ≤ 0 := hb ▸ le_max_left _ _
    constructor <;> linarith
  · intro ⟨h1, h2⟩
    have ha : max (-0.5 - p) 0 = 0 := max_eq_right (by linarith)
    have hb : max (p - 0.5) 0 = 0 := max_eq_right (by linarith)
    rw [ha, hb]
    ring

/-- Claim C4: the per-zone thermal-sensation index computed by both
`NuestroRewardMultizona._calculate_pmv_violation` and
`NuestroRewardMultizonaPPO._calculate_pmv_violation` is exactly
`PMV = -7.4928 + 0.2882*T - 0.0020*RH + 0.0004*T*RH`, and at
`T = 25.0, RH = 50.0` it equals the value of that polynomial there. -/
theorem pmv_regression_exact (tdb rh total_energy : ℚ) :
    (NuestroRewardMultizona.calculate_pmv_violation tdb rh total_energy).1 =
      -7.4928 + 0.2882 * tdb - 0.0020 * rh + 0.0004 * tdb * rh
    ∧ (NuestroRewardMultizonaPPO.calculate_pmv_violation tdb rh).1 =
      -7.4928 + 0.2882 * tdb - 0.0020 * rh + 0.0004 * tdb * rh
    ∧ (NuestroRewardMultizona.calculate_pmv_violation 25 50 0).1 =
      -7.4928 + 0.2882 * 25 - 0.0020 * 50 + 0.0004 * 25 * 50 := by
  refine ⟨rfl, rfl, ?_⟩
  norm_num [NuestroRewardMultizona.calculate_pmv_violation]

/-- Claim C5: the per-zone violation of the symmetric-bilateral variant is
`d + d²` for `d = max(-0.5 - PMV, 0) + max(PMV - 0.5, 0)`; it vanishes
exactly on the comfort band `[-0.5, 0.5]`; it is `2` at `PMV = -1.5`
(reached at `tdb = 2724/131, rh = 0`) and `1.44` at `PMV = 1.3`
(reached at `tdb = 43964/1441, rh = 0`). -/
theorem multizona_symmetric_violation (tdb rh total_energy : ℚ) :
    ((NuestroRewardMultizona.calculate_pmv_violation tdb rh total_energy).2 =
        spec_band_deviation
          (NuestroRewardMultizona.calculate_pmv_violation tdb rh total_energy).1
        + spec_band_deviation
          (NuestroRewardMultizona.calculate_pmv_violation tdb rh total_energy).1
          ^ 2
     ∧ ((NuestroRewardMultizona.calculate_pmv_violation tdb rh total_energy).2
          = 0 ↔
        -0.5 ≤
          (NuestroRewardMultizona.calculate_pmv_violation tdb rh total_energy).1
        ∧ (NuestroRewardMultizona.calculate_pmv_violation tdb rh total_energy).1
          ≤ 0.5))
    ∧ NuestroRewardMultizona.calculate_pmv_violation (2724/131) 0 0 = (-1.5, 2)
    ∧ NuestroRewardMultizona.calculate_pmv_violation (43964/1441) 0 0 =
        (1.3, 36/25) := by
  refine ⟨⟨?_, ?_⟩, ?_, ?_⟩
  · show _ = spec_band_deviation _ + spec_band_deviation _ ^ 2
    simp only [NuestroRewardMultizona.calculate_pmv_violation,
      spec_band_deviation]
    ring
  · have hrw : (NuestroRewardMultizona.calculate_pmv_violation tdb rh
        total_energy).2 =
        spec_band_deviation
          (NuestroRewardMultizona.calculate_pmv_violation tdb rh
            total_energy).1
        + spec_band_deviation
          (NuestroRewardMultizona.calculate_pmv_violation tdb rh
            total_energy).1 ^ 2 := by
      simp only [NuestroRewardMultizona.calculate_pmv_violation,
        spec_band_deviation]
      ring
    rw [hrw]
    set p := (NuestroRewardMultizona.calculate_pmv_violation tdb rh
      total_energy).1 with hp
    rw [← spec_band_deviation_eq_zero_iff p]
    have hnn := spec_band_deviation_nonneg p
    constructor
    · intro h
      nlinarith [sq_nonneg (spec_band_deviation p)]
    · intro h
      rw [h]
      ring
  · norm_num [NuestroRewardMultizona.calculate_pmv_violation]
  · norm_num [NuestroRewardMultizona.calculate_pmv_violation]

/-- An observation with the given calendar fields and all other readings
equal to zero. -/
def exObs (month day hour : ℚ) : String → ℚ := fun s =>
  if s = "month" then month
  else if s = "day_of_month" then day
  else if s = "hour" then hour
  else 0

/-- The engine produced by the default-tariff construction
`NuestroRewardMultizona.init ["t"] ["h"] ["e"] 0.5 1 1 none 10 4`. -/
def exEngine : NuestroRewardMultizona :=
  { temp_names := ["t"]
    hum_names := ["h"]
    energy_names := ["e"]
    W_energy := 0.5
    lambda_energy := 1
    lambda_temp := 1
    precio_punta := 10
    precio_fuera_punta := 4
    punta_inicio := 17
    punta_fin := 20
    dias_punta := [0, 1, 2, 3, 4] }

lemma exEngine_init :
    NuestroRewardMultizona.init ["t"] ["h"] ["e"] 0.5 1 1 none 10 4 =
      Except.ok exEngine := by
  unfold NuestroRewardMultizona.init exEngine
  norm_num

/-- The `price_kwh` reported by `NuestroRewardMultizona.__call__` is the
peak price when the weekday of the clamped date is a peak day and the
clamped hour lies in the inclusive peak window, and the off-peak price
otherwise. -/
lemma multizona_call_price (R : NuestroRewardMultizona)
    (obs : String → ℚ) :
    (R.call obs).2.price_kwh =
      if weekdayOf (max 1 (min 12 (pyInt (obs "month"))))
            (max 1 (min 28 (pyInt (obs "day_of_month")))) ∈ R.dias_punta
          ∧ R.punta_inicio ≤ max 0 (min 23 (pyInt (obs "hour")))
          ∧ max 0 (min 23 (pyInt (obs "hour"))) ≤ R.punta_fin
      then R.precio_punta else R.precio_fuera_punta := rfl

/-- Claim C2: the peak price is applied exactly when the weekday of the
clamped date is in the configured peak-day set and the clamped hour lies
in `[punta_inicio, punta_fin]` (both ends inclusive); otherwise the
off-peak price is applied.  With the default window `[17,20]` on weekdays
Monday..Friday and prices `10`/`4`: Monday (Jan 15) hour 18 gives `10`,
Saturday (Jan 13) hour 18 gives `4`, Monday hour 16 gives `4`. -/
theorem multizona_tariff_selection (R : NuestroRewardMultizona)
    (obs : String → ℚ)
    (hne : R.precio_punta ≠ R.precio_fuera_punta) :
    ((R.call obs).2.price_kwh = R.precio_punta ↔
      (weekdayOf (max 1 (min 12 (pyInt (obs "month"))))
            (max 1 (min 28 (pyInt (obs "day_of_month")))) ∈ R.dias_punta
        ∧ R.punta_inicio ≤ max 0 (min 23 (pyInt (obs "hour")))
        ∧ max 0 (min 23 (pyInt (obs "hour"))) ≤ R.punta_fin))
    ∧ (exEngine.call (exObs 1 15 18)).2.price_kwh = 10
    ∧ (exEngine.call (exObs 1 13 18)).2.price_kwh = 4
    ∧ (exEngine.call (exObs 1 15 16)).2.price_kwh = 4 := by
  refine ⟨?_, by decide, by decide, by decide⟩
  rw [multizona_call_price]
  split_ifs with h
  · exact iff_of_true rfl h
  · exact iff_of_false (fun heq => hne heq.symm) h

theorem multizona_tariff_selection_witness :
    (exEngine.call (exObs 1 15 18)).2.price_kwh = exEngine.precio_punta :=
  (multizona_tariff_selection exEngine (exObs 1 15 18)
      (by norm_num [exEngine])).1.mpr (by decide)

/-- The engine of the end-to-end scenario: one zone
(`east_temp`/`east_rh`), one meter, `W = 0.5`, `lambda_temperature = 30`,
peak price 10 and off-peak price 4 on the default window. -/
def specEngine : NuestroRewardMultizona :=
  { temp_names := ["east_temp"]
    hum_names := ["east_rh"]
    energy_names := ["heat_pump_power"]
    W_energy := 0.5
    lambda_energy := 1
    lambda_temp := 30
    precio_punta := 10
    precio_fuera_punta := 4
    punta_inicio := 17
    punta_fin := 20
    dias_punta := [0, 1, 2, 3, 4] }

/-- The end-to-end scenario observation: Jan 15, 18h, 22 °C, 45 % RH,
2000 W. -/
def specObs : String → ℚ := fun s =>
  if s = "month" then 1
  else if s = "day_of_month" then 15
  else if s = "hour" then 18
  else if s = "east_temp" then 22
  else if s = "east_rh" then 45
  else if s = "heat_pump_power" then 2000
  else 0

/-- Claim C3: `NuestroRewardMultizona.__call__` returns
`reward = energy_term + comfort_term` with
`energy_term = lambda_energy * W * energy_penalty`,
`comfort_term = lambda_temperature * (1-W) * (-total_violation)` and
`energy_penalty = -((sum of configured energy readings)/1000) * price`;
on the end-to-end scenario the reward evaluates to
`-5311217/312500 ≈ -16.9959`. -/
theorem multizona_reward_decomposition (R : NuestroRewardMultizona)
    (obs : String → ℚ) :
    (R.call obs).1 = (R.call obs).2.energy_term + (R.call obs).2.comfort_term
    ∧ (R.call obs).2.energy_term =
        R.lambda_energy * R.W_energy * (R.call obs).2.energy_penalty
    ∧ (R.call obs).2.comfort_term =
        R.lambda_temp * (1 - R.W_energy) *
          (-(R.call obs).2.total_temperature_violation)
    ∧ (R.call obs).2.energy_penalty =
        -(((R.energy_names.map obs).sum) / 1000) * (R.call obs).2.price_kwh
    ∧ (specEngine.call specObs).1 = -5311217/312500 := by
  refine ⟨rfl, rfl, rfl, rfl, ?_⟩
  simp [NuestroRewardMultizona.call, NuestroRewardMultizona.get_energy_consumed,
    NuestroRewardMultizona.get_temperature_violation,
    NuestroRewardMultizona.calculate_pmv_violation, specEngine, specObs,
    pyInt, weekdayOf, cumDaysBeforeMonth]
  norm_num

/-- Claim C6: every reward-engine constructor rejects an `energy_weight`
outside `[0,1]` with a `ValueError`; no engine value is produced. -/
theorem energy_weight_bounds (w le lt hp lp : ℚ) (tv hv ev : List String)
    (rcw rcs : ℚ × ℚ) (ss sf : ℤ × ℤ) (tar : Option Tarifa)
    (sched : Option (List ScheduleRow))
    (hw : w < 0 ∨ 1 < w) :
    LinearReward.init tv ev rcw rcs ss sf w le lt =
      Except.error "ValueError"
    ∧ NuestroReward.init tv ev w le lt hp lp sched =
      Except.error "ValueError"
    ∧ NuestroRewardMultizona.init tv hv ev w le lt tar hp lp =
      Except.error "ValueError"
    ∧ NuestroRewardMultizonaPPO.init tv hv ev w le lt tar hp lp =
      Except.error "ValueError" := by
  have hw2 : ¬ (0 ≤ w ∧ w ≤ 1) := by
    rcases hw with h | h <;> intro hc <;>
      rcases hc with ⟨h0, h1⟩ <;> linarith
  refine ⟨?_, ?_, ?_, ?_⟩
  · unfold LinearReward.init
    rw [if_pos hw2]
  · unfold NuestroReward.init
    rw [if_pos hw2]
  · unfold NuestroRewardMultizona.init
    rw [if_pos hw2]
  · unfold NuestroRewardMultizonaPPO.init
    rw [if_pos hw2]

theorem energy_weight_bounds_witness :
    LinearReward.init ["t"] ["e"] (20, 23.5) (23, 26) (6, 1) (9, 30)
        (3/2) 1 1 = Except.error "ValueError"
    ∧ NuestroReward.init ["t"] ["e"] (3/2) 1 1 10 4 none =
      Except.error "ValueError"
    ∧ NuestroRewardMultizona.init ["t"] ["h"] ["e"] (3/2) 1 1 none 10 4 =
      Except.error "ValueError"
    ∧ NuestroRewardMultizonaPPO.init ["t"] ["h"] ["e"] (3/2) 1 1 none 10 4 =
      Except.error "ValueError" :=
  energy_weight_bounds (3/2) 1 1 10 4 ["t"] ["h"] ["e"] (20, 23.5) (23, 26)
    (6, 1) (9, 30) none none (Or.inr (by norm_num))

/-- Claim C7 (counterexample): constructing `NuestroRewardMultizona` with
temperature list `["t1","t2"]` and humidity list `["h1"]` of different
lengths succeeds, and the produced engine evaluates against the shorter
common prefix (one zone), so the claimed construction-time failure does
not happen. -/
theorem multizona_mismatched_lengths_accepted :
    NuestroRewardMultizona.init ["t1", "t2"] ["h1"] ["e"] 0.5 1 1 none 10 4 =
      Except.ok
        { temp_names := ["t1", "t2"]
          hum_names := ["h1"]
          energy_names := ["e"]
          W_energy := 0.5
          lambda_energy := 1
          lambda_temp := 1
          precio_punta := 10
          precio_fuera_punta := 4
          punta_inicio := 17
          punta_fin := 20
          dias_punta := [0, 1, 2, 3, 4] }
    ∧ Except.map
        (fun R => (NuestroRewardMultizona.get_temperature_violation R
            (exObs 1 15 18) 0).1.length)
        (NuestroRewardMultizona.init ["t1", "t2"] ["h1"] ["e"] 0.5 1 1 none
          10 4) = Except.ok 1 := by
  constructor
  · unfold NuestroRewardMultizona.init
    norm_num
  · unfold NuestroRewardMultizona.init
    norm_num [Except.map, NuestroRewardMultizona.get_temperature_violation]

/-- Claim C7 (amended): with any valid `energy_weight`, construction with
mismatched temperature/humidity list lengths succeeds (only the weight
bound and the string-typed-name checks run), and the engine then pairs
only the shorter common prefix of the two lists when evaluating. -/
theorem multizona_mismatched_lengths_zip (tv hv ev : List String)
    (w le lt hp lp : ℚ) (hw0 : 0 ≤ w) (hw1 : w ≤ 1) :
    ∃ R : NuestroRewardMultizona,
      NuestroRewardMultizona.init tv hv ev w le lt none hp lp =
        Except.ok R
      ∧ ∀ (obs : String → ℚ) (te : ℚ),
          (NuestroRewardMultizona.get_temperature_violation R obs te).1.length
            = min tv.length hv.length
          ∧ (NuestroRewardMultizona.get_temperature_violation R obs
              te).2.length = min tv.length hv.length := by
  have hcond : ¬ ¬ (0 ≤ w ∧ w ≤ 1) := not_not_intro ⟨hw0, hw1⟩
  refine ⟨{ temp_names := tv
            hum_names := hv
            energy_names := ev
            W_energy := w
            lambda_energy := le
            lambda_temp := lt
            precio_punta := hp
            precio_fuera_punta := lp
            punta_inicio := 17
            punta_fin := 20
            dias_punta := [0, 1, 2, 3, 4] }, ?_, fun obs te => ?_⟩
  · unfold NuestroRewardMultizona.init
    rw [if_neg hcond]
  · constructor <;>
      simp [NuestroRewardMultizona.get_temperature_violation,
        List.length_zip]

theorem multizona_mismatched_lengths_zip_witness :
    ∃ R : NuestroRewardMultizona,
      NuestroRewardMultizona.init ["t1", "t2"] ["h1"] ["e"] 0.5 1 1 none
        10 4 = Except.ok R
      ∧ ∀ (obs : String → ℚ) (te : ℚ),
          (NuestroRewardMultizona.get_temperature_violation R obs te).1.length
            = min (["t1", "t2"] : List String).length
                (["h1"] : List String).length
          ∧ (NuestroRewardMultizona.get_temperature_violation R obs
              te).2.length = min (["t1", "t2"] : List String).length
                (["h1"] : List String).length :=
  multizona_mismatched_lengths_zip ["t1", "t2"] ["h1"] ["e"] 0.5 1 1 10 4
    (by norm_num) (by norm_num)

/-- Claim C1 (code bug evidence): at `PMV = 1.0` (reached at
`tdb = 42464/1441, rh = 0`) and a total energy reading of `0`, the
energy-gated hot-side variant `NuestroRewardMultizona` still returns the
violation `0.75`, not `0`; the `total_energy` argument never changes the
result. -/
theorem multizona_hot_gate_ignored :
    (NuestroRewardMultizona.calculate_pmv_violation (42464/1441) 0 0).1 = 1
    ∧ (NuestroRewardMultizona.calculate_pmv_violation (42464/1441) 0 0).2 =
        3/4
    ∧ ∀ total_energy : ℚ,
        NuestroRewardMultizona.calculate_pmv_violation (42464/1441) 0
            total_energy =
          NuestroRewardMultizona.calculate_pmv_violation (42464/1441) 0 0 := by
  refine ⟨?_, ?_, fun total_energy => rfl⟩
  · norm_num [NuestroRewardMultizona.calculate_pmv_violation]
  · norm_num [NuestroRewardMultizona.calculate_pmv_violation]

lemma nuestro_violation_eq (E : NuestroReward) (obs : String → ℚ) :
    (E.get_temperature_violation obs).sum =
      max (max (max (max (-0 : ℚ)
        (5 - (-7.4928 + 0.2882 * obs (E.temp_names.getD 0 "")
          - 0.0020 * obs (E.temp_names.getD 1 "")
          + 0.0004 * obs (E.temp_names.getD 0 "")
            * obs (E.temp_names.getD 1 "")))) 0)
        ((-7.4928 + 0.2882 * obs (E.temp_names.getD 0 "")
          - 0.0020 * obs (E.temp_names.getD 1 "")
          + 0.0004 * obs (E.temp_names.getD 0 "")
            * obs (E.temp_names.getD 1 "")) - 0)) 5 := by
  simp [NuestroReward.get_temperature_violation]

lemma fiveArgMax_vs_band (p : ℚ) :
    max (max (max (max (-0 : ℚ) (5 - p)) 0) (p - 0)) 5 ≠
        max (max (-0.5 - p) 0) (p - 0.5)
    ∧ 5 ≤ max (max (max (max (-0 : ℚ) (5 - p)) 0) (p - 0)) 5
    ∧ max (max (max (max (-0 : ℚ) (5 - p)) 0) (p - 0)) 5 ≠ 0 := by
  set v := max (max (max (max (-0 : ℚ) (5 - p)) 0) (p - 0)) 5 with hv
  have h5 : (5:ℚ) ≤ v := le_max_right _ _
  have hp : p - 0 ≤ v :=
    le_trans (le_max_right _ _) (le_max_left _ _)
  have h5p : 5 - p ≤ v := by
    have h1 : 5 - p ≤ max (-0 : ℚ) (5 - p) := le_max_right _ _
    have h2 : max (-0 : ℚ) (5 - p) ≤ max (max (-0 : ℚ) (5 - p)) 0 :=
      le_max_left _ _
    have h3 : max (max (-0 : ℚ) (5 - p)) 0 ≤
        max (max (max (-0 : ℚ) (5 - p)) 0) (p - 0) := le_max_left _ _
    have h4 : max (max (max (-0 : ℚ) (5 - p)) 0) (p - 0) ≤ v := by
      rw [hv]
      exact le_max_left _ _
    linarith
  have hA : -0.5 - p < v := by linarith
  have hB : (0 : ℚ) < v := by linarith
  have hC : p - 0.5 < v := by linarith
  have hband : max (max (-0.5 - p) 0) (p - 0.5) < v :=
    max_lt (max_lt hA hB) hC
  refine ⟨(ne_of_lt hband).symm, h5, ?_⟩
  intro h0
  rw [h0] at h5
  norm_num at h5

/-- Claim C9: the `NuestroReward` violation expression containing the
literal `-0,5` (a five-argument `max` over `-0`, `5 - pmv`, `0`,
`pmv - 0`, `5`) never computes the comfort-band formula
`max(-0.5 - PMV, 0, PMV - 0.5)`: for every input the result differs from
the band formula, is at least 5, and in particular is never 0. -/
theorem nuestro_violation_miscomputed (E : NuestroReward)
    (obs : String → ℚ) :
    (E.get_temperature_violation obs).sum ≠
        max (max (-0.5 - (-7.4928 + 0.2882 * obs (E.temp_names.getD 0 "")
            - 0.0020 * obs (E.temp_names.getD 1 "")
            + 0.0004 * obs (E.temp_names.getD 0 "")
              * obs (E.temp_names.getD 1 ""))) 0)
          ((-7.4928 + 0.2882 * obs (E.temp_names.getD 0 "")
            - 0.0020 * obs (E.temp_names.getD 1 "")
            + 0.0004 * obs (E.temp_names.getD 0 "")
              * obs (E.temp_names.getD 1 "")) - 0.5)
    ∧ 5 ≤ (E.get_temperature_violation obs).sum
    ∧ (E.get_temperature_violation obs).sum ≠ 0 := by
  rw [nuestro_violation_eq]
  exact fiveArgMax_vs_band _

/-- A presence schedule whose only row is Jan 1, hour 0, multiplier 0. -/
def nrSchedule : List ScheduleRow :=
  [{ month := 1, day := 1, hour := 0, my_factor := 0 }]

/-- A `NuestroReward` engine configured with weight `0.5` and the one-row
presence schedule `nrSchedule`. -/
def nrEngine : NuestroReward :=
  { temp_names := ["t", "h"]
    energy_names := ["e"]
    W_energy := 0.5
    lambda_energy := 1
    lambda_temp := 1
    low_price := 4
    high_price := 10
    schedule := some nrSchedule }

/-- Claim C8 (counterexample): with configured weight `0.5` and a schedule
whose only zero-multiplier slot is Jan 1 hour 0, evaluating that slot and
then the slot Jan 1 hour 1 — which is absent from the schedule — makes the
second evaluation report weight `1`, not the configured `0.5`: the
override is retained in the engine state across calls. -/
theorem nuestro_schedule_override_sticky :
    nrEngine.W_energy = 0.5
    ∧ scheduleLookup nrSchedule 1 1 1 = none
    ∧ (((nrEngine.call (exObs 1 1 0)).2.2.call
        (exObs 1 1 1)).2.1).reward_weight = 1
    ∧ (((nrEngine.call (exObs 1 1 0)).2.2.call
        (exObs 1 1 1)).2.1).reward_weight ≠ nrEngine.W_energy := by
  have h3 : (((nrEngine.call (exObs 1 1 0)).2.2.call
      (exObs 1 1 1)).2.1).reward_weight = 1 := by
    simp [NuestroReward.call, nrEngine, nrSchedule, scheduleLookup, exObs,
      pyInt]
  refine ⟨rfl, rfl, h3, ?_⟩
  rw [h3]
  norm_num [nrEngine]

/-- Claim C8 (amended): when the schedule multiplier of the current slot
is exactly 0 the evaluation uses energy weight 1, and the override is
retained in the engine state: the engine returned by the call carries
`W_energy = 1` and every later evaluation also reports weight 1, whatever
slot it falls on — the originally configured weight is never restored. -/
theorem nuestro_schedule_override_retained (E : NuestroReward)
    (rows : List ScheduleRow) (obs1 obs2 : String → ℚ)
    (hs : E.schedule = some rows)
    (hf : scheduleLookup rows (pyInt (obs1 "month"))
        (pyInt (obs1 "day_of_month")) (pyInt (obs1 "hour")) = some 0) :
    ((E.call obs1).2.1).reward_weight = 1
    ∧ ((E.call obs1).2.2).W_energy = 1
    ∧ ((((E.call obs1).2.2).call obs2).2.1).reward_weight = 1 := by
  have h1 : (E.call obs1).2.2 = { E with W_energy := 1 } := by
    simp [NuestroReward.call, hs, hf]
  have h2 : ((E.call obs1).2.1).reward_weight = 1 := by
    simp [NuestroReward.call, hs, hf]
  refine ⟨h2, by rw [h1], ?_⟩
  rw [h1]
  rcases hlook : scheduleLookup rows (pyInt (obs2 "month"))
      (pyInt (obs2 "day_of_month")) (pyInt (obs2 "hour")) with _ | f
  · simp [NuestroReward.call, hs, hlook]
  · simp [NuestroReward.call, hs, hlook, ite_self]

theorem nuestro_schedule_override_retained_witness :
    ((nrEngine.call (exObs 1 1 0)).2.1).reward_weight = 1
    ∧ ((nrEngine.call (exObs 1 1 0)).2.2).W_energy = 1
    ∧ ((((nrEngine.call (exObs 1 1 0)).2.2).call
        (exObs 1 1 1)).2.1).reward_weight = 1 :=
  nuestro_schedule_override_retained nrEngine nrSchedule (exObs 1 1 0)
    (exObs 1 1 1) rfl
    (by simp [scheduleLookup, nrSchedule, exObs, pyInt])

/-- Claim C10: in the API observation path, a configured variable name
absent from the response, whose field mapping is absent or maps to a field
absent from the response, receives the value 0; the observation vector
keeps one value per configured variable, in order, and construction never
fails. -/
theorem api_missing_field_defaults_zero (vars : List String)
    (data : String → Option ℚ) (field_mapping : String → Option String)
    (name : String) (hd : data name = none)
    (hm : field_mapping name = none ∨
      ∃ f, field_mapping name = some f ∧ data f = none) :
    api_lookup data field_mapping name = 0
    ∧ (get_observation_api vars data field_mapping).length = vars.length
    ∧ ∀ i : ℕ, (get_observation_api vars data field_mapping).get? i =
        (vars.get? i).map (api_lookup data field_mapping) := by
  refine ⟨?_, by simp [get_observation_api], ?_⟩
  · rcases hm with h | ⟨f, hf, hdf⟩
    · simp [api_lookup, hd, h]
    · simp [api_lookup, hd, hf, hdf]
  · intro i
    simp [get_observation_api, List.get?_map]

theorem api_missing_field_defaults_zero_witness :
    api_lookup (fun _ => none) (fun _ => none) "zone_temp" = 0
    ∧ (get_observation_api ["zone_temp", "power"] (fun _ => none)
        (fun _ => none)).length = (["zone_temp", "power"] : List String).length
    ∧ ∀ i : ℕ, (get_observation_api ["zone_temp", "power"] (fun _ => none)
        (fun _ => none)).get? i =
        ((["zone_temp", "power"] : List String).get? i).map
          (api_lookup (fun _ => none) (fun _ => none)) :=
  api_missing_field_defaults_zero ["zone_temp", "power"] (fun _ => none)
    (fun _ => none) "zone_temp" rfl (Or.inl rfl)
